import Mathlib

/-!
Shallow embedding of the alertmanager-configurer-k8s-operator charm
(src/charm.py and src/config_dir_watcher.py).

The charm's event handlers are modelled as pure state transformers
`CharmState → CharmState × List Effect`, where `Effect` records the
observable side effects performed against the host platform (status
assignments, pebble layer operations, container file pushes, event
deferrals, watchdog startup).  External library calls that the handlers
make (PyYAML's `yaml.safe_load`, the alertmanager remote-configurer
charm library's file loaders) are modelled symbolically: file loading is
an environment field of `CharmState`, and `yaml_safe_load` is an
injective wrapper around the input string.
-/

namespace AlertmanagerConfigurer

/-- Unit status values from `ops.model`, each carrying its message.
`ActiveStatus()` with no argument is `active ""`.  The `ops` library also
has `ErrorStatus` and `UnknownStatus`; the charm never constructs them,
but they are part of the status universe. -/
inductive Status where
  | active (msg : String)
  | blocked (msg : String)
  | waiting (msg : String)
  | maintenance (msg : String)
  | error (msg : String)
  | unknown (msg : String)
  deriving DecidableEq, Repr

/-- One pebble service definition, as built by the charm's layer
properties (the only fields the charm ever sets). -/
structure ServiceSpec where
  override : String
  startup : String
  command : String
  deriving DecidableEq, Repr

/-- A pebble layer: summary, description and a services mapping
(modelled as an association list in insertion order). -/
structure Layer where
  summary : String
  description : String
  services : List (String × ServiceSpec)
  deriving DecidableEq, Repr

/-- Symbolic model of PyYAML's `yaml.safe_load` applied to a string: the
charm only ever passes the result straight to `Container.push`, so the
parse is kept abstract as an injective wrapper around the input. -/
structure YamlValue where
  raw : String
  deriving DecidableEq, Repr

def yaml_safe_load (s : String) : YamlValue := ⟨s⟩

/-- Observable side effects an event handler performs against the host
platform, in execution order. -/
inductive Effect where
  | start_watchdog (dir : String)
  | set_status (st : Status)
  | add_layer (container : String) (layer : Layer)
  | restart (name : String)
  | push (path : String) (content : YamlValue)
  | defer
  deriving DecidableEq, Repr

/-! Class-level constants of `AlertmanagerConfigurerOperatorCharm`. -/

def ALERTMANAGER_CONFIG_DIR : String := "/etc/alertmanager/"

/-- `os.path.join(ALERTMANAGER_CONFIG_DIR, "alertmanager.yml")`. -/
def ALERTMANAGER_CONFIG_FILE : String := "/etc/alertmanager/alertmanager.yml"

def DUMMY_HTTP_SERVER_SERVICE_NAME : String := "dummy-http-server"

def DUMMY_HTTP_SERVER_HOST : String := "localhost"

def DUMMY_HTTP_SERVER_PORT : Nat := 80

def ALERTMANAGER_CONFIGURER_SERVICE_NAME : String := "alertmanager-configurer"

def ALERTMANAGER_CONFIGURER_PORT : Nat := 9101

/-- The triple-quoted default config string from charm.py, including the
trailing newline and four spaces of indentation before the closing
quotes. -/
def ALERTMANAGER_DEFAULT_CONFIG : String :=
  "route:\n  receiver: null_receiver\n  group_by:\n  - alertname\n  group_wait: 10s\n  group_interval: 10s\n  repeat_interval: 1h\nreceivers:\n- name: null_receiver\n    "

/-- Model of the Alertmanager config dict returned by
`remote_config_write.load_config_file`: the handlers only ever inspect
and pop the "templates" entry (a list of file names when present), so
that entry is modelled explicitly and every other entry is carried
opaquely as a scalar string binding in insertion order. -/
structure AlertmanagerConfig where
  templates : Option (List String)
  rest : List (String × String)
  deriving DecidableEq, Repr

/-! A small model of Python's `json.dumps` (default separators) on the
values the charm serializes: the config dict and a list of strings. -/

def json_escape_char (c : Char) : String :=
  if c = '\\' then "\\\\"
  else if c = '"' then "\\\""
  else if c = '\n' then "\\n"
  else String.singleton c

def json_escape (s : String) : String :=
  String.join (s.toList.map json_escape_char)

def json_str (s : String) : String := "\"" ++ json_escape s ++ "\""

def json_dumps_list (xs : List String) : String :=
  "[" ++ String.intercalate ", " (xs.map json_str) ++ "]"

def json_dumps_config (c : AlertmanagerConfig) : String :=
  let entries := c.rest.map (fun p => json_str p.1 ++ ": " ++ json_str p.2)
  let entries := match c.templates with
    | some ts => entries ++ [json_str "templates" ++ ": " ++ json_dumps_list ts]
    | none => entries
  "\x7b" ++ String.intercalate ", " entries ++ "\x7d"

/-! Relation data bags are flat string-to-string mappings; assignment
updates an existing key in place and otherwise appends. -/

def set_key (bag : List (String × String)) (k v : String) :
    List (String × String) :=
  if bag.any (fun p => p.1 = k) then
    bag.map (fun p => if p.1 = k then (k, v) else p)
  else bag ++ [(k, v)]

def lookup_key (bag : List (String × String)) (k : String) : Option String :=
  (bag.find? (fun p => p.1 = k)).map Prod.snd

/-- The platform-visible state an event handler of the charm reads and
writes: leadership, presence of the "alertmanager" relation, the config
file and its loaded content, the "templates_file" charm config option
(empty string models a falsy value), the template-file loader (`none`
models `FileNotFoundError`), the "multitenant_label" charm config
option (`none` models an unset option, rendered "None" by the f-string),
container connectivity, the dummy server's service state, the current
pebble plans' services, the alertmanager relation's application data
bag, and the unit status. -/
structure CharmState where
  is_leader : Bool
  alertmanager_relation : Bool
  config_file_exists : Bool
  config_file : AlertmanagerConfig
  templates_file : String
  load_templates_file : String → Option String
  multitenant_label : Option String
  configurer_can_connect : Bool
  dummy_can_connect : Bool
  dummy_http_server_running : Bool
  configurer_plan_services : List (String × ServiceSpec)
  dummy_plan_services : List (String × ServiceSpec)
  app_data : List (String × String)
  unit_status : Status

/-- Python `str()` of an optional string config value, as interpolated
by an f-string: `None` renders as "None". -/
def py_str_opt : Option String → String
  | some s => s
  | none => "None"

/-- The `_alertmanager_configurer_layer` property: everything is a fixed
constant except the interpolated "multitenant_label" config value. -/
def alertmanager_configurer_layer (s : CharmState) : Layer :=
  { summary := "Alertmanager Configurer layer"
    description := "Pebble config layer for Alertmanager Configurer"
    services := [(ALERTMANAGER_CONFIGURER_SERVICE_NAME,
      { override := "replace"
        startup := "enabled"
        command := "alertmanager_configurer " ++
          "-port=" ++ toString ALERTMANAGER_CONFIGURER_PORT ++ " " ++
          "-alertmanager-conf=" ++ ALERTMANAGER_CONFIG_FILE ++ " " ++
          "-alertmanagerURL=" ++
          DUMMY_HTTP_SERVER_HOST ++ ":" ++ toString DUMMY_HTTP_SERVER_PORT ++ " " ++
          "-multitenant-label=" ++ py_str_opt s.multitenant_label ++ " " ++
          "-delete-route-with-receiver=true " })] }

/-- The `_dummy_http_server_layer` property: a fixed constant. -/
def dummy_http_server_layer : Layer :=
  { summary := "Dummy HTTP server pebble layer"
    description := "Pebble layer configuration for the dummy HTTP server"
    services := [(DUMMY_HTTP_SERVER_SERVICE_NAME,
      { override := "replace"
        startup := "enabled"
        command := "nginx" })] }

/-- `_start_alertmanager_configurer`: if the current plan's services
differ from the layer's, set MaintenanceStatus, add the layer and
restart; otherwise do nothing. -/
def start_alertmanager_configurer (s : CharmState) : CharmState × List Effect :=
  let layer := alertmanager_configurer_layer s
  if s.configurer_plan_services ≠ layer.services then
    let st := Status.maintenance
      ("Configuring pebble layer for " ++ ALERTMANAGER_CONFIGURER_SERVICE_NAME)
    ({ s with unit_status := st },
      [Effect.set_status st,
       Effect.add_layer ALERTMANAGER_CONFIGURER_SERVICE_NAME layer,
       Effect.restart ALERTMANAGER_CONFIGURER_SERVICE_NAME])
  else (s, [])

/-- `_start_dummy_http_server`: same pattern for the dummy server. -/
def start_dummy_http_server (s : CharmState) : CharmState × List Effect :=
  let layer := dummy_http_server_layer
  if s.dummy_plan_services ≠ layer.services then
    let st := Status.maintenance
      ("Configuring pebble layer for " ++ DUMMY_HTTP_SERVER_SERVICE_NAME)
    ({ s with unit_status := st },
      [Effect.set_status st,
       Effect.add_layer DUMMY_HTTP_SERVER_SERVICE_NAME layer,
       Effect.restart DUMMY_HTTP_SERVER_SERVICE_NAME])
  else (s, [])

/-- `_on_alertmanager_configurer_pebble_ready`: starts the config-dir
watchdog, then checks the three platform conditions in order, setting a
status and deferring on the first failure; when all hold it starts the
alertmanager-configurer service and sets ActiveStatus. -/
def on_alertmanager_configurer_pebble_ready (s : CharmState) :
    CharmState × List Effect :=
  let watch : List Effect := [Effect.start_watchdog ALERTMANAGER_CONFIG_DIR]
  if !s.alertmanager_relation then
    let st := Status.blocked "Waiting for alertmanager relation to be created"
    ({ s with unit_status := st }, watch ++ [Effect.set_status st, Effect.defer])
  else if !s.configurer_can_connect then
    let st := Status.waiting
      ("Waiting for " ++ ALERTMANAGER_CONFIGURER_SERVICE_NAME ++
        " container to be ready")
    ({ s with unit_status := st }, watch ++ [Effect.set_status st, Effect.defer])
  else if !s.dummy_http_server_running then
    let st := Status.waiting "Waiting for the dummy HTTP server to be ready"
    ({ s with unit_status := st }, watch ++ [Effect.set_status st, Effect.defer])
  else
    let r := start_alertmanager_configurer s
    ({ r.1 with unit_status := Status.active "" },
      watch ++ r.2 ++ [Effect.set_status (Status.active "")])

/-- `_on_dummy_http_server_pebble_ready`: if the dummy container is
connectable, start the dummy HTTP server; otherwise set WaitingStatus
and defer. -/
def on_dummy_http_server_pebble_ready (s : CharmState) :
    CharmState × List Effect :=
  if s.dummy_can_connect then start_dummy_http_server s
  else
    let st := Status.waiting
      ("Waiting for " ++ DUMMY_HTTP_SERVER_SERVICE_NAME ++
        " container to be ready")
    ({ s with unit_status := st }, [Effect.set_status st, Effect.defer])

/-- `_get_templates`: if the config has a truthy "templates" entry, pop
it and collect the contents of the listed files, skipping any that raise
`FileNotFoundError`; elif the "templates_file" charm config option is
truthy, use it as the single template; else no templates. -/
def get_templates (s : CharmState) (config : AlertmanagerConfig) :
    List String × AlertmanagerConfig :=
  match config.templates with
  | some ts =>
    if !ts.isEmpty then
      (ts.filterMap s.load_templates_file, { config with templates := none })
    else if s.templates_file ≠ "" then ([s.templates_file], config)
    else ([], config)
  | none =>
    if s.templates_file ≠ "" then ([s.templates_file], config)
    else ([], config)

/-- `_on_alertmanager_config_changed`: non-leaders return immediately;
then the relation and config-file guards set a status and defer; on
success the loaded config (after template extraction) and the computed
templates list are JSON-dumped into the alertmanager relation's
application data bag. -/
def on_alertmanager_config_changed (s : CharmState) : CharmState × List Effect :=
  if !s.is_leader then (s, [])
  else if !s.alertmanager_relation then
    let st := Status.blocked "Waiting for alertmanager relation to be created"
    ({ s with unit_status := st }, [Effect.set_status st, Effect.defer])
  else if !s.config_file_exists then
    let st := Status.waiting "Waiting for Alertmanager config file to be available"
    ({ s with unit_status := st }, [Effect.set_status st, Effect.defer])
  else
    let config := s.config_file
    let tc := get_templates s config
    let bag :=
      set_key (set_key s.app_data "alertmanager_config" (json_dumps_config tc.2))
        "alertmanager_templates" (json_dumps_list tc.1)
    ({ s with app_data := bag }, [])

/-- A relation-joined event: the remote application's data bag (`none`
models `event.relation.app` being `None`, which makes the data lookup
raise `AttributeError`) and the relation's own application data bag for
this charm's app. -/
structure RelationJoinedEvent where
  remote_app_data : Option (List (String × String))
  app_data : List (String × String)

/-- `_on_alertmanager_relation_joined` via
`_get_default_alertmanager_config`: push the remote app's
"alertmanager_config" value, parsed by `yaml.safe_load`, to the config
file path; on `AttributeError` or `KeyError` fall back to the built-in
default config. -/
def on_alertmanager_relation_joined (s : CharmState) (ev : RelationJoinedEvent) :
    CharmState × List Effect :=
  let cfg := match ev.remote_app_data with
    | none => ALERTMANAGER_DEFAULT_CONFIG
    | some bag =>
      match lookup_key bag "alertmanager_config" with
      | none => ALERTMANAGER_DEFAULT_CONFIG
      | some v => v
  (s, [Effect.push ALERTMANAGER_CONFIG_FILE (yaml_safe_load cfg)])

/-- `_add_service_info_to_relation_data_bag`: write the service name and
stringified port into the joining relation's application data bag. -/
def add_service_info_to_relation_data_bag (ev : RelationJoinedEvent) :
    List (String × String) :=
  set_key (set_key ev.app_data "service_name" ALERTMANAGER_CONFIGURER_SERVICE_NAME)
    "port" (toString ALERTMANAGER_CONFIGURER_PORT)

/-- `_on_alertmanager_configurer_relation_joined`: delegates to
`_add_service_info_to_relation_data_bag`; the charm state is untouched
and the updated event-relation data bag is returned alongside it. -/
def on_alertmanager_configurer_relation_joined (s : CharmState)
    (ev : RelationJoinedEvent) :
    (CharmState × List (String × String)) × List Effect :=
  ((s, add_service_info_to_relation_data_bag ev), [])

/-! The config-dir watcher (src/config_dir_watcher.py). -/

/-- A watchdog filesystem event, with the attributes watchdog events
carry; the handler ignores all of them. -/
structure FileSystemEvent where
  event_type : String
  src_path : String
  is_directory : Bool
  deriving DecidableEq, Repr

/-- A shell command executed by the watcher process. -/
inductive WatcherCmd where
  | run (args : List String)
  deriving DecidableEq, Repr

/-- `dispatch`: runs the juju exec binary against the unit with
`JUJU_DISPATCH_PATH=hooks/alertmanager_config_file_changed` prepended to
the charm directory's dispatch script. -/
def dispatch (run_command unit charm_dir : String) : List WatcherCmd :=
  [WatcherCmd.run [run_command, "-u", unit,
    "JUJU_DISPATCH_PATH=hooks/alertmanager_config_file_changed " ++
      charm_dir ++ "/dispatch"]]

/-- The watchdog `Handler` and its constructor arguments. -/
structure Handler where
  run_command : String
  unit : String
  charm_dir : String
  deriving DecidableEq, Repr

/-- `Handler.on_any_event`: watchdog's callback, run on any change in
the watched directory; it unconditionally dispatches. -/
def Handler.on_any_event (h : Handler) (event : FileSystemEvent) :
    List WatcherCmd :=
  dispatch h.run_command h.unit h.charm_dir

/-! Generic helpers over effect traces and data bags, used by the
claims below. -/

/-- The statuses assigned by a handler, in the order they were set. -/
def statuses_set (effects : List Effect) : List Status :=
  effects.filterMap (fun e => match e with
    | Effect.set_status st => some st
    | _ => none)

def is_blocked_waiting_or_active : Status → Bool
  | Status.blocked _ => true
  | Status.waiting _ => true
  | Status.active _ => true
  | _ => false

def is_charm_settable_status : Status → Bool
  | Status.blocked _ => true
  | Status.waiting _ => true
  | Status.active _ => true
  | Status.maintenance _ => true
  | _ => false

def is_blocked : Status → Bool
  | Status.blocked _ => true
  | _ => false

/-- A concrete fully-connected charm state used to evaluate handlers on
explicit inputs. -/
def base_state : CharmState :=
  { is_leader := true
    alertmanager_relation := true
    config_file_exists := true
    config_file := { templates := none, rest := [("route", "r")] }
    templates_file := ""
    load_templates_file := fun _ => none
    multitenant_label := some "networkID"
    configurer_can_connect := true
    dummy_can_connect := true
    dummy_http_server_running := true
    configurer_plan_services := []
    dummy_plan_services := []
    app_data := []
    unit_status := Status.active "" }

/-- A leader state whose loaded config carries a non-empty templates
section, with every template file present with content "tpl". -/
def templated_config_state : CharmState :=
  { base_state with
    config_file := { templates := some ["t1"], rest := [("route", "r")] }
    load_templates_file := fun _ => some "tpl" }

/-- A state agreeing with `base_state` on "multitenant_label" but
differing everywhere a handler could look. -/
def relabeled_state : CharmState :=
  { base_state with
    is_leader := false
    alertmanager_relation := false
    templates_file := "x"
    app_data := [("a", "b")]
    unit_status := Status.blocked "b" }

/-- A config whose templates section lists one existing and one missing
file. -/
def two_template_config : AlertmanagerConfig :=
  { templates := some ["a", "b"], rest := [("k", "v")] }

/-- A state whose template loader only finds file "a" and whose
"templates_file" charm option is set (and must be ignored). -/
def partial_loader_state : CharmState :=
  { base_state with
    templates_file := "ignored"
    load_templates_file := fun f => if f = "a" then some "A" else none }

/-- The non-leader variant of `base_state`. -/
def non_leader_state : CharmState :=
  { base_state with is_leader := false }

/-- A relation-joined event whose remote application provides an
"alertmanager_config" value. -/
def remote_config_event : RelationJoinedEvent :=
  { remote_app_data := some [("alertmanager_config", "cfg")], app_data := [] }

/-! Lemmas about data-bag update and lookup. -/

theorem set_key_cons (p : String × String) (t : List (String × String))
    (k v : String) :
    set_key (p :: t) k v =
      if p.1 = k then (k, v) :: t.map (fun q => if q.1 = k then (k, v) else q)
      else p :: set_key t k v := by
  by_cases hp : p.1 = k
  · simp [set_key, hp]
  · by_cases ht : t.any (fun q => decide (q.1 = k))
    · simp [set_key, hp, ht]
    · simp [set_key, hp, ht]

theorem lookup_key_cons (p : String × String) (bag : List (String × String))
    (k : String) :
    lookup_key (p :: bag) k = if p.1 = k then some p.2 else lookup_key bag k := by
  by_cases hp : p.1 = k <;> simp [lookup_key, List.find?_cons, hp]

theorem lookup_key_map_replace (t : List (String × String)) (k v k2 : String)
    (h : k2 ≠ k) :
    lookup_key (t.map (fun q => if q.1 = k then (k, v) else q)) k2 =
      lookup_key t k2 := by
  induction t with
  | nil => rfl
  | cons p t ih =>
    by_cases hp : p.1 = k
    · have hk : k ≠ k2 := fun he => h he.symm
      simp [hp, lookup_key_cons, hk, ih]
    · simp only [List.map_cons, if_neg hp]
      rw [lookup_key_cons, lookup_key_cons, ih]

theorem lookup_key_set_key_same (bag : List (String × String)) (k v : String) :
    lookup_key (set_key bag k v) k = some v := by
  induction bag with
  | nil => simp [set_key, lookup_key]
  | cons p t ih =>
    rw [set_key_cons]
    by_cases hp : p.1 = k
    · simp [hp, lookup_key_cons]
    · simp only [if_neg hp]
      rw [lookup_key_cons, if_neg hp, ih]

theorem lookup_key_set_key_other (bag : List (String × String))
    (k v k2 : String) (h : k2 ≠ k) :
    lookup_key (set_key bag k v) k2 = lookup_key bag k2 := by
  induction bag with
  | nil =>
    have hk : k ≠ k2 := fun he => h he.symm
    simp [set_key, lookup_key_cons, hk, lookup_key]
  | cons p t ih =>
    rw [set_key_cons]
    by_cases hp : p.1 = k
    · have hk : k ≠ k2 := fun he => h he.symm
      rw [if_pos hp, lookup_key_cons, lookup_key_cons]
      simp only [if_neg hk, hp]
      exact lookup_key_map_replace t k v k2 h
    · rw [if_neg hp, lookup_key_cons, lookup_key_cons, ih]

/-- Folding the literal pieces of the configurer layer's command
f-string around the interpolated multitenant label. -/
theorem configurer_command_eq (x : String) :
    "alertmanager_configurer " ++
        "-port=" ++ toString ALERTMANAGER_CONFIGURER_PORT ++ " " ++
        "-alertmanager-conf=" ++ ALERTMANAGER_CONFIG_FILE ++ " " ++
        "-alertmanagerURL=" ++
        DUMMY_HTTP_SERVER_HOST ++ ":" ++ toString DUMMY_HTTP_SERVER_PORT ++ " " ++
        "-multitenant-label=" ++ x ++ " " ++
        "-delete-route-with-receiver=true " =
      "alertmanager_configurer -port=9101 -alertmanager-conf=/etc/alertmanager/alertmanager.yml -alertmanagerURL=localhost:80 -multitenant-label=" ++
        x ++ " -delete-route-with-receiver=true " := by
  rw [String.append_assoc _ x, String.append_assoc _ x,
    String.append_assoc _ (x ++ " "), String.append_assoc x " "]
  rfl

/-- C1: for every filesystem event under the watched config directory,
`Handler.on_any_event` invokes the orchestrator hook-dispatch command
(via `dispatch`) exactly once, unconditionally: the command list is the
single juju-exec dispatch invocation, has length one, and is identical
for any two events. -/
theorem watcher_on_any_event_always_dispatches_once (h : Handler)
    (event e2 : FileSystemEvent) :
    h.on_any_event event =
      [WatcherCmd.run [h.run_command, "-u", h.unit,
        "JUJU_DISPATCH_PATH=hooks/alertmanager_config_file_changed " ++
          h.charm_dir ++ "/dispatch"]] ∧
    (h.on_any_event event).length = 1 ∧
    h.on_any_event event = h.on_any_event e2 ∧
    h.on_any_event event = dispatch h.run_command h.unit h.charm_dir :=
  ⟨rfl, rfl, rfl, rfl⟩

/-- C5: every alertmanager-configurer relation-joined event writes
"service_name" = "alertmanager-configurer" and "port" = "9101" (the
stringified numeric port) into the relation's application data bag,
independently of the charm state, which is left unchanged. -/
theorem configurer_relation_joined_writes_service_info (s : CharmState)
    (ev : RelationJoinedEvent) :
    lookup_key (on_alertmanager_configurer_relation_joined s ev).1.2
        "service_name" = some ALERTMANAGER_CONFIGURER_SERVICE_NAME ∧
    lookup_key (on_alertmanager_configurer_relation_joined s ev).1.2 "port" =
      some "9101" ∧
    toString ALERTMANAGER_CONFIGURER_PORT = "9101" ∧
    (on_alertmanager_configurer_relation_joined s ev).1.1 = s ∧
    (on_alertmanager_configurer_relation_joined s ev).2 = [] ∧
    (∀ s2 : CharmState,
      (on_alertmanager_configurer_relation_joined s2 ev).1.2 =
        (on_alertmanager_configurer_relation_joined s ev).1.2) := by
  refine ⟨?_, ?_, rfl, rfl, rfl, fun s2 => rfl⟩
  · show lookup_key (add_service_info_to_relation_data_bag ev) "service_name" = _
    unfold add_service_info_to_relation_data_bag
    rw [lookup_key_set_key_other _ _ _ _ (by decide), lookup_key_set_key_same]
  · show lookup_key (add_service_info_to_relation_data_bag ev) "port" = _
    unfold add_service_info_to_relation_data_bag
    rw [lookup_key_set_key_same]
    rfl

/-- C9: every alertmanager relation-joined event pushes a config to the
workload container at the Alertmanager config file path: the remote
application's "alertmanager_config" value (as parsed by yaml.safe_load)
when it is provided, and the built-in default config when the key is
missing or the remote app is unset, without the handler failing; the
charm state is untouched. -/
theorem alertmanager_relation_joined_pushes_config (s : CharmState)
    (ev : RelationJoinedEvent) :
    (on_alertmanager_relation_joined s ev).1 = s ∧
    (ev.remote_app_data = none →
      (on_alertmanager_relation_joined s ev).2 =
        [Effect.push ALERTMANAGER_CONFIG_FILE
          (yaml_safe_load ALERTMANAGER_DEFAULT_CONFIG)]) ∧
    (∀ bag, ev.remote_app_data = some bag →
      lookup_key bag "alertmanager_config" = none →
      (on_alertmanager_relation_joined s ev).2 =
        [Effect.push ALERTMANAGER_CONFIG_FILE
          (yaml_safe_load ALERTMANAGER_DEFAULT_CONFIG)]) ∧
    (∀ bag v, ev.remote_app_data = some bag →
      lookup_key bag "alertmanager_config" = some v →
      (on_alertmanager_relation_joined s ev).2 =
        [Effect.push ALERTMANAGER_CONFIG_FILE (yaml_safe_load v)]) := by
  refine ⟨rfl, ?_, ?_, ?_⟩
  · intro hnone
    simp [on_alertmanager_relation_joined, hnone]
  · intro bag hbag hmiss
    simp [on_alertmanager_relation_joined, hbag, hmiss]
  · intro bag v hbag hval
    simp [on_alertmanager_relation_joined, hbag, hval]

/-- C9 witness: with a remote data bag providing "alertmanager_config"
= "cfg", the handler pushes exactly that value. -/
theorem alertmanager_relation_joined_pushes_config_witness :
    (on_alertmanager_relation_joined base_state remote_config_event).2 =
      [Effect.push ALERTMANAGER_CONFIG_FILE (yaml_safe_load "cfg")] :=
  (alertmanager_relation_joined_pushes_config base_state
    remote_config_event).2.2.2 [("alertmanager_config", "cfg")] "cfg" rfl
    (by decide)

/-- C10: when the unit is not the leader, the config-changed handler
returns immediately: the state (status, data bag and all) is unchanged,
no effect is performed and the event is not deferred. -/
theorem config_changed_non_leader_noop (s : CharmState)
    (h : s.is_leader = false) :
    on_alertmanager_config_changed s = (s, []) ∧
    (on_alertmanager_config_changed s).1.unit_status = s.unit_status ∧
    (on_alertmanager_config_changed s).1.app_data = s.app_data ∧
    Effect.defer ∉ (on_alertmanager_config_changed s).2 ∧
    statuses_set (on_alertmanager_config_changed s).2 = [] := by
  have he : on_alertmanager_config_changed s = (s, []) := by
    simp [on_alertmanager_config_changed, h]
  refine ⟨he, by rw [he], by rw [he], by rw [he]; simp, by rw [he]; rfl⟩

/-- C10 witness: the non-leader variant of the base state is mapped to
itself with no effects. -/
theorem config_changed_non_leader_noop_witness :
    on_alertmanager_config_changed non_leader_state = (non_leader_state, []) :=
  (config_changed_non_leader_noop non_leader_state rfl).1

/-- C2 counterexample: on a leader state whose config file carries a
non-empty "templates" list, the value written under "alertmanager_config"
is NOT the JSON serialization of the loaded config — `_get_templates`
pops the "templates" entry first, so the templates-free config is
serialized instead. -/
theorem config_changed_writes_loaded_config_counterexample :
    lookup_key (on_alertmanager_config_changed templated_config_state).1.app_data
        "alertmanager_config" ≠
      some (json_dumps_config templated_config_state.config_file) ∧
    lookup_key (on_alertmanager_config_changed templated_config_state).1.app_data
        "alertmanager_config" =
      some (json_dumps_config { templates := none, rest := [("route", "r")] }) := by
  constructor
  · intro h
    exact absurd (Option.some.inj h) (by decide)
  · decide

/-- C2 amended: on a leader unit with the alertmanager relation and an
existing config file, the handler writes into the relation's application
data bag "alertmanager_config" = the JSON serialization of the loaded
config after `_get_templates` has removed any non-empty "templates"
section, and "alertmanager_templates" = the JSON serialization of the
computed templates list; the event is not deferred. -/
theorem config_changed_leader_updates_data_bag (s : CharmState)
    (hl : s.is_leader = true) (hr : s.alertmanager_relation = true)
    (hf : s.config_file_exists = true) :
    (on_alertmanager_config_changed s).1.app_data =
      set_key (set_key s.app_data "alertmanager_config"
          (json_dumps_config (get_templates s s.config_file).2))
        "alertmanager_templates"
        (json_dumps_list (get_templates s s.config_file).1) ∧
    lookup_key (on_alertmanager_config_changed s).1.app_data
        "alertmanager_templates" =
      some (json_dumps_list (get_templates s s.config_file).1) ∧
    lookup_key (on_alertmanager_config_changed s).1.app_data
        "alertmanager_config" =
      some (json_dumps_config (get_templates s s.config_file).2) ∧
    (on_alertmanager_config_changed s).2 = [] := by
  have he : (on_alertmanager_config_changed s).1.app_data =
      set_key (set_key s.app_data "alertmanager_config"
          (json_dumps_config (get_templates s s.config_file).2))
        "alertmanager_templates"
        (json_dumps_list (get_templates s s.config_file).1) := by
    simp [on_alertmanager_config_changed, hl, hr, hf]
  refine ⟨he, ?_, ?_, ?_⟩
  · rw [he, lookup_key_set_key_same]
  · rw [he, lookup_key_set_key_other _ _ _ _ (by decide),
      lookup_key_set_key_same]
  · simp [on_alertmanager_config_changed, hl, hr, hf]

/-- C2 amended witness: on the concrete templated leader state the two
keys receive the serialized templates-free config and the loaded
template contents. -/
theorem config_changed_leader_updates_data_bag_witness :
    lookup_key (on_alertmanager_config_changed templated_config_state).1.app_data
        "alertmanager_templates" = some "[\"tpl\"]" ∧
    lookup_key (on_alertmanager_config_changed templated_config_state).1.app_data
        "alertmanager_config" = some "\x7b\"route\": \"r\"\x7d" := by
  have h := config_changed_leader_updates_data_bag templated_config_state
    rfl rfl rfl
  exact ⟨h.2.1.trans (by decide), h.2.2.1.trans (by decide)⟩

/-- C3: the configurer pebble-ready handler checks its three platform
conditions in order and, on the first failing one, sets the
corresponding status and defers without touching the service: a missing
alertmanager relation yields BlockedStatus, a non-connectable configurer
container yields WaitingStatus, a non-running dummy HTTP server yields
WaitingStatus, and only when all three hold does it start the
alertmanager-configurer service and set ActiveStatus. -/
theorem configurer_pebble_ready_condition_order (s : CharmState) :
    (s.alertmanager_relation = false →
      (on_alertmanager_configurer_pebble_ready s).1.unit_status =
        Status.blocked "Waiting for alertmanager relation to be created" ∧
      (on_alertmanager_configurer_pebble_ready s).2 =
        [Effect.start_watchdog ALERTMANAGER_CONFIG_DIR,
         Effect.set_status
           (Status.blocked "Waiting for alertmanager relation to be created"),
         Effect.defer]) ∧
    (s.alertmanager_relation = true → s.configurer_can_connect = false →
      (on_alertmanager_configurer_pebble_ready s).1.unit_status =
        Status.waiting
          "Waiting for alertmanager-configurer container to be ready" ∧
      (on_alertmanager_configurer_pebble_ready s).2 =
        [Effect.start_watchdog ALERTMANAGER_CONFIG_DIR,
         Effect.set_status (Status.waiting
           "Waiting for alertmanager-configurer container to be ready"),
         Effect.defer]) ∧
    (s.alertmanager_relation = true → s.configurer_can_connect = true →
      s.dummy_http_server_running = false →
      (on_alertmanager_configurer_pebble_ready s).1.unit_status =
        Status.waiting "Waiting for the dummy HTTP server to be ready" ∧
      (on_alertmanager_configurer_pebble_ready s).2 =
        [Effect.start_watchdog ALERTMANAGER_CONFIG_DIR,
         Effect.set_status
           (Status.waiting "Waiting for the dummy HTTP server to be ready"),
         Effect.defer]) ∧
    (s.alertmanager_relation = true → s.configurer_can_connect = true →
      s.dummy_http_server_running = true →
      (on_alertmanager_configurer_pebble_ready s).1.unit_status =
        Status.active "" ∧
      Effect.defer ∉ (on_alertmanager_configurer_pebble_ready s).2 ∧
      (s.configurer_plan_services ≠ (alertmanager_configurer_layer s).services →
        Effect.restart ALERTMANAGER_CONFIGURER_SERVICE_NAME ∈
          (on_alertmanager_configurer_pebble_ready s).2)) := by
  refine ⟨?_, ?_, ?_, ?_⟩
  · intro h1
    constructor <;> simp [on_alertmanager_configurer_pebble_ready, h1]
  · intro h1 h2
    constructor <;>
      simp [on_alertmanager_configurer_pebble_ready, h1, h2,
        ALERTMANAGER_CONFIGURER_SERVICE_NAME]
  · intro h1 h2 h3
    constructor <;> simp [on_alertmanager_configurer_pebble_ready, h1, h2, h3]
  · intro h1 h2 h3
    by_cases hp :
        s.configurer_plan_services = (alertmanager_configurer_layer s).services
    · refine ⟨?_, ?_, fun hne => absurd hp hne⟩ <;>
        simp [on_alertmanager_configurer_pebble_ready,
          start_alertmanager_configurer, h1, h2, h3, hp]
    · refine ⟨?_, ?_, fun _ => ?_⟩ <;>
        simp [on_alertmanager_configurer_pebble_ready,
          start_alertmanager_configurer, h1, h2, h3, hp]

/-- C3 witness: on the fully-connected base state (whose pebble plan is
empty, hence differs from the layer) the handler goes Active, does not
defer, and restarts the alertmanager-configurer service. -/
theorem configurer_pebble_ready_condition_order_witness :
    (on_alertmanager_configurer_pebble_ready base_state).1.unit_status =
      Status.active "" ∧
    Effect.defer ∉ (on_alertmanager_configurer_pebble_ready base_state).2 ∧
    Effect.restart ALERTMANAGER_CONFIGURER_SERVICE_NAME ∈
      (on_alertmanager_configurer_pebble_ready base_state).2 := by
  have h := (configurer_pebble_ready_condition_order base_state).2.2.2 rfl rfl rfl
  exact ⟨h.1, h.2.1, h.2.2 (by decide)⟩

/-- C4 counterexample: on the fully-connected base state the configurer
pebble-ready handler sets a MaintenanceStatus ("Configuring pebble layer
for alertmanager-configurer") while reconfiguring the pebble layer, so
the statuses set by the handlers are not limited to Blocked, Waiting and
Active. -/
theorem unit_status_three_state_counterexample :
    Status.maintenance
        ("Configuring pebble layer for " ++ ALERTMANAGER_CONFIGURER_SERVICE_NAME) ∈
      statuses_set (on_alertmanager_configurer_pebble_ready base_state).2 ∧
    (statuses_set (on_alertmanager_configurer_pebble_ready base_state).2).all
      is_blocked_waiting_or_active = false := by
  constructor
  · decide
  · decide

/-- C4 amended: across every event handler, the unit status is only
ever set to a Blocked, Waiting, Active or Maintenance value (the
Maintenance value occurring transiently while a pebble layer is being
(re)configured); in particular no handler ever sets an Error or Unknown
status, and the relation-joined handlers set no status at all. -/
theorem unit_status_only_charm_settable (s : CharmState)
    (ev : RelationJoinedEvent) :
    (statuses_set (on_alertmanager_configurer_pebble_ready s).2).all
      is_charm_settable_status = true ∧
    (statuses_set (on_dummy_http_server_pebble_ready s).2).all
      is_charm_settable_status = true ∧
    (statuses_set (on_alertmanager_config_changed s).2).all
      is_charm_settable_status = true ∧
    statuses_set (on_alertmanager_relation_joined s ev).2 = [] ∧
    statuses_set (on_alertmanager_configurer_relation_joined s ev).2 = [] := by
  refine ⟨?_, ?_, ?_, rfl, rfl⟩
  · by_cases h1 : s.alertmanager_relation <;>
      by_cases h2 : s.configurer_can_connect <;>
      by_cases h3 : s.dummy_http_server_running <;>
      by_cases h4 : s.configurer_plan_services =
        (alertmanager_configurer_layer s).services <;>
      simp [on_alertmanager_configurer_pebble_ready,
        start_alertmanager_configurer, statuses_set, is_charm_settable_status,
        h1, h2, h3, h4]
  · by_cases h1 : s.dummy_can_connect <;>
      by_cases h2 : s.dummy_plan_services = dummy_http_server_layer.services <;>
      simp [on_dummy_http_server_pebble_ready, start_dummy_http_server,
        statuses_set, is_charm_settable_status, h1, h2]
  · by_cases h1 : s.is_leader <;>
      by_cases h2 : s.alertmanager_relation <;>
      by_cases h3 : s.config_file_exists <;>
      simp [on_alertmanager_config_changed, statuses_set,
        is_charm_settable_status, h1, h2, h3]

/-- C6: pebble layer construction is static string templating: the
dummy-HTTP-server layer is one fixed service definition (override
"replace", startup "enabled", command "nginx"), and the configurer
layer's only input-dependent part is the interpolated
"multitenant_label" value — all other fields are the fixed constants,
and two charm states with equal "multitenant_label" yield equal
layers. -/
theorem pebble_layers_static_templating (s s2 : CharmState)
    (h : s.multitenant_label = s2.multitenant_label) :
    dummy_http_server_layer.services =
      [(DUMMY_HTTP_SERVER_SERVICE_NAME,
        { override := "replace", startup := "enabled", command := "nginx" })] ∧
    alertmanager_configurer_layer s = alertmanager_configurer_layer s2 ∧
    (alertmanager_configurer_layer s).services =
      [(ALERTMANAGER_CONFIGURER_SERVICE_NAME,
        { override := "replace", startup := "enabled",
          command := "alertmanager_configurer -port=9101 -alertmanager-conf=/etc/alertmanager/alertmanager.yml -alertmanagerURL=localhost:80 -multitenant-label=" ++
            py_str_opt s.multitenant_label ++
            " -delete-route-with-receiver=true " })] := by
  refine ⟨rfl, ?_, ?_⟩
  · simp [alertmanager_configurer_layer, h]
  · simp only [alertmanager_configurer_layer]
    rw [configurer_command_eq]

/-- C6 witness: the base state and a state differing in leadership,
relation presence, data bag, status and templates_file — but with the
same multitenant label — produce identical configurer layers. -/
theorem pebble_layers_static_templating_witness :
    alertmanager_configurer_layer base_state =
      alertmanager_configurer_layer relabeled_state :=
  (pebble_layers_static_templating base_state relabeled_state rfl).2.1

/-- C7: the dummy-HTTP-server pebble-ready handler has exactly one
platform condition: when the dummy container is connectable it runs the
dummy-server start routine (restarting the service whenever the current
plan differs from the layer) and does not defer; otherwise it sets
WaitingStatus ("Waiting for dummy-http-server container to be ready")
and defers; in every case it never sets a Blocked status. -/
theorem dummy_pebble_ready_single_condition (s : CharmState) :
    (s.dummy_can_connect = true →
      on_dummy_http_server_pebble_ready s = start_dummy_http_server s ∧
      Effect.defer ∉ (on_dummy_http_server_pebble_ready s).2 ∧
      (s.dummy_plan_services ≠ dummy_http_server_layer.services →
        Effect.restart DUMMY_HTTP_SERVER_SERVICE_NAME ∈
          (on_dummy_http_server_pebble_ready s).2)) ∧
    (s.dummy_can_connect = false →
      (on_dummy_http_server_pebble_ready s).1.unit_status =
        Status.waiting "Waiting for dummy-http-server container to be ready" ∧
      (on_dummy_http_server_pebble_ready s).2 =
        [Effect.set_status (Status.waiting
           "Waiting for dummy-http-server container to be ready"),
         Effect.defer]) ∧
    (statuses_set (on_dummy_http_server_pebble_ready s).2).all
      (fun st => !(is_blocked st)) = true := by
  refine ⟨?_, ?_, ?_⟩
  · intro h1
    refine ⟨by simp [on_dummy_http_server_pebble_ready, h1], ?_, ?_⟩
    · by_cases h2 : s.dummy_plan_services = dummy_http_server_layer.services <;>
        simp [on_dummy_http_server_pebble_ready, start_dummy_http_server,
          h1, h2]
    · intro h2
      simp [on_dummy_http_server_pebble_ready, start_dummy_http_server, h1, h2]
  · intro h1
    constructor <;>
      simp [on_dummy_http_server_pebble_ready, DUMMY_HTTP_SERVER_SERVICE_NAME,
        h1]
  · by_cases h1 : s.dummy_can_connect <;>
      by_cases h2 : s.dummy_plan_services = dummy_http_server_layer.services <;>
      simp [on_dummy_http_server_pebble_ready, start_dummy_http_server,
        statuses_set, is_blocked, h1, h2]

/-- C7 witness: on the base state (connectable, empty plan) the handler
restarts the dummy server and does not defer. -/
theorem dummy_pebble_ready_single_condition_witness :
    Effect.restart DUMMY_HTTP_SERVER_SERVICE_NAME ∈
      (on_dummy_http_server_pebble_ready base_state).2 ∧
    Effect.defer ∉ (on_dummy_http_server_pebble_ready base_state).2 := by
  have h := (dummy_pebble_ready_single_condition base_state).1 rfl
  exact ⟨h.2.2 (by decide), h.2.1⟩

/-- C8: template resolution: a non-empty "templates" list in the config
makes the result the contents of the listed files in order with missing
files skipped, removes the "templates" key from the config (so it is not
serialized into the data bag), and ignores the "templates_file" charm
option; with no non-empty "templates" entry, a truthy "templates_file"
gives the one-element list containing it, and otherwise the result is
empty, with the config left unchanged in both cases. -/
theorem get_templates_resolution (s : CharmState)
    (config : AlertmanagerConfig) :
    (∀ ts, config.templates = some ts → ts ≠ [] →
      get_templates s config =
        (ts.filterMap s.load_templates_file, { config with templates := none }) ∧
      (get_templates s config).2.templates = none ∧
      (∀ tf, get_templates { s with templates_file := tf } config =
        get_templates s config)) ∧
    ((config.templates = none ∨ config.templates = some []) →
      s.templates_file ≠ "" →
      get_templates s config = ([s.templates_file], config)) ∧
    ((config.templates = none ∨ config.templates = some []) →
      s.templates_file = "" →
      get_templates s config = ([], config)) := by
  refine ⟨?_, ?_, ?_⟩
  · intro ts hts hne
    have hemp : ts.isEmpty = false := by
      cases ts with
      | nil => exact absurd rfl hne
      | cons a l => rfl
    refine ⟨?_, ?_, ?_⟩
    · simp [get_templates, hts, hemp]
    · simp [get_templates, hts, hemp]
    · intro tf
      simp [get_templates, hts, hemp]
  · intro hcfg htf
    rcases hcfg with hn | he
    · simp [get_templates, hn, htf]
    · simp [get_templates, he, htf]
  · intro hcfg htf
    rcases hcfg with hn | he
    · simp [get_templates, hn, htf]
    · simp [get_templates, he, htf]

/-- C8 witness: with config templates ["a", "b"], a loader that only
finds "a" (with content "A") and a set "templates_file" option, the
result is (["A"], config without the templates key). -/
theorem get_templates_resolution_witness :
    get_templates partial_loader_state two_template_config =
      (["A"], { templates := none, rest := [("k", "v")] }) := by
  have h := ((get_templates_resolution partial_loader_state
    two_template_config).1 ["a", "b"] rfl (by decide)).1
  exact h.trans (by decide)

end AlertmanagerConfigurer
